import Mathlib

/-!
Shallow embedding of the pharmacy-project Django API core: the location
hierarchy validator (api/serializers.py), the inventory filter set
(api/filters.py), the request/search logging pipeline (api/middleware.py,
api/views.py), pagination (api/pagination.py) and the user role and
permission logic (api/models.py, api/permissions.py), together with
theorems settling the specification's claims about them.
-/

namespace PharmacyApi

/-! ## String helpers: Python `in` on str, Django `icontains` -/

/-- Character-list prefix test: the needle matches at the head of the hay. -/
def charsPrefixOf : List Char → List Char → Bool
  | [], _ => true
  | _ :: _, [] => false
  | a :: as, b :: bs => (a == b) && charsPrefixOf as bs

/-- Character-list containment: the needle occurs contiguously in the hay. -/
def charsSub : List Char → List Char → Bool
  | needle, [] => charsPrefixOf needle []
  | needle, b :: t => charsPrefixOf needle (b :: t) || charsSub needle t

/-- Case-sensitive substring test, Python `sub in hay` on strings. -/
def strContains (hay sub : String) : Bool := charsSub sub.data hay.data

/-- Lower-cased character list of a string. -/
def lowerChars (s : String) : List Char := s.data.map Char.toLower

/-- Case-insensitive substring test: a Django `icontains` lookup on a
non-null column value. -/
def icontains (hay sub : String) : Bool := charsSub (lowerChars sub) (lowerChars hay)

lemma charsPrefixOf_append_right (s x y : List Char) (h : charsPrefixOf s x = true) :
    charsPrefixOf s (x ++ y) = true := by
  induction s generalizing x with
  | nil => simp [charsPrefixOf]
  | cons a as ih =>
    cases x with
    | nil => simp [charsPrefixOf] at h
    | cons b bs =>
      simp only [charsPrefixOf, Bool.and_eq_true] at h
      simpa [charsPrefixOf, h.1] using ih bs h.2

lemma charsPrefixOf_refl (s : List Char) : charsPrefixOf s s = true := by
  induction s with
  | nil => simp [charsPrefixOf]
  | cons a as ih => simp [charsPrefixOf, ih]

lemma charsSub_of_prefix (s x : List Char) (h : charsPrefixOf s x = true) :
    charsSub s x = true := by
  cases x <;> simp [charsSub, h]

lemma charsSub_append_left (s x y : List Char) (h : charsSub s x = true) :
    charsSub s (x ++ y) = true := by
  induction x with
  | nil =>
    simp only [charsSub] at h
    exact charsSub_of_prefix _ _ (charsPrefixOf_append_right _ _ _ h)
  | cons b t ih =>
    simp only [charsSub, Bool.or_eq_true] at h
    rcases h with h | h
    · exact charsSub_of_prefix _ _ (charsPrefixOf_append_right _ _ _ h)
    · simpa [charsSub, Bool.or_eq_true] using Or.inr (ih h)

lemma charsSub_append_right (s x y : List Char) (h : charsSub s x = true) :
    charsSub s (y ++ x) = true := by
  induction y with
  | nil => simpa using h
  | cons c t ih => simpa [charsSub, Bool.or_eq_true] using Or.inr ih

lemma charsSub_refl (s : List Char) : charsSub s s = true :=
  charsSub_of_prefix _ _ (charsPrefixOf_refl s)

lemma strContains_append_left (a b s : String) (h : strContains a s = true) :
    strContains (a ++ b) s = true := by
  simpa [strContains, String.data_append] using charsSub_append_left _ _ b.data h

lemma strContains_append_right (a b s : String) (h : strContains b s = true) :
    strContains (a ++ b) s = true := by
  simpa [strContains, String.data_append] using charsSub_append_right _ _ a.data h

lemma strContains_self (s : String) : strContains s s = true :=
  charsSub_refl s.data

/-! ## Location model (api/models.py) -/

/-- A Location row: display name, type label (a Persian word) and an optional
parent reference (self-relation, `null=True`). -/
inductive Location where
  | node (name : String) (ty : String) (parent : Option Location)

def Location.name : Location → String
  | .node n _ _ => n

def Location.type : Location → String
  | .node _ t _ => t

def Location.parent : Location → Option Location
  | .node _ _ p => p

/-- Ancestor of a location at a given depth along `parent` links
(0 = the node itself). -/
def Location.ancestorAt : Location → Nat → Option Location
  | l, 0 => some l
  | l, n + 1 =>
    match l.parent with
    | some p => Location.ancestorAt p n
    | none => none

/-- Persian type label for Province. -/
def PROVINCE : String := "استان"

/-- Persian type label for County. -/
def COUNTY : String := "شهرستان"

/-- Persian type label for City. -/
def CITY : String := "شهر"

/-- Persian type label for District. -/
def DISTRICT : String := "منطقه"

/-! ## Location hierarchy validator (api/serializers.py, LocationSerializer.validate) -/

/-- The `hierarchy` dict of LocationSerializer.validate: child type to required
parent type. -/
def hierarchy : List (String × String) :=
  [(DISTRICT, CITY), (CITY, COUNTY), (COUNTY, PROVINCE)]

/-- Python `hierarchy.get(loc_type)`. -/
def hierarchyGet (t : String) : Option String :=
  (hierarchy.find? (fun kv => kv.1 == t)).map (fun kv => kv.2)

/-- Python f-string rendering of an optional string (`None` prints as "None"). -/
def pystr : Option String → String
  | some s => s
  | none => "None"

/-- Single-quote wrapper, as in the serializer's f-string messages. -/
def quoted (s : String) : String := "\x27" ++ s ++ "\x27"

/-- A DRF ValidationError raised with a mapping from one field name to a
message. -/
structure ValidationError where
  field : String
  message : String
deriving DecidableEq

/-- Rules 1-3 of LocationSerializer.validate, applied to the resulting
(type, parent) pair. `locType` is an Option because `data.get` can yield
Python None when the field is absent and there is no stored instance. -/
def validateCore (locType : Option String) (parent : Option Location) :
    Except ValidationError Unit :=
  if locType = some PROVINCE then
    match parent with
    | some _ => .error ⟨"parent", "یک استان (Province) نمی‌تواند والد داشته باشد."⟩
    | none => .ok ()
  else
    match parent with
    | none => .error ⟨"parent", "یک " ++ quoted (pystr locType) ++ " باید یک والد داشته باشد."⟩
    | some p =>
      let required := locType.bind hierarchyGet
      if some p.type = required then .ok ()
      else
        .error ⟨"parent",
          "والد یک " ++ quoted (pystr locType) ++ " باید از نوع " ++
            quoted (pystr required) ++ " باشد، اما والد ارائه شده از نوع " ++
            quoted p.type ++ " است."⟩

/-- The `data` mapping passed to LocationSerializer.validate: a field is the
outer `none` when absent from the request; `parent` may be present and null. -/
structure LocationData where
  type : Option String := none
  parent : Option (Option Location) := none

/-- Python `data.get('type', getattr(self.instance, 'type', None))`. -/
def effectiveType (data : LocationData) (inst : Option Location) : Option String :=
  match data.type with
  | some t => some t
  | none => inst.map Location.type

/-- Python `data.get('parent', getattr(self.instance, 'parent', None))`. -/
def effectiveParent (data : LocationData) (inst : Option Location) : Option Location :=
  match data.parent with
  | some p => p
  | none => inst.bind Location.parent

/-- LocationSerializer.validate in full: the fallback of absent fields to the
stored instance is inlined exactly as in the source, followed by rules 1-3. -/
def validate (data : LocationData) (inst : Option Location) :
    Except ValidationError Unit :=
  let locType : Option String :=
    match data.type with
    | some t => some t
    | none => inst.map Location.type
  let parent : Option Location :=
    match data.parent with
    | some p => p
    | none => inst.bind Location.parent
  if locType = some PROVINCE then
    match parent with
    | some _ => .error ⟨"parent", "یک استان (Province) نمی‌تواند والد داشته باشد."⟩
    | none => .ok ()
  else
    match parent with
    | none => .error ⟨"parent", "یک " ++ quoted (pystr locType) ++ " باید یک والد داشته باشد."⟩
    | some p =>
      let required := locType.bind hierarchyGet
      if some p.type = required then .ok ()
      else
        .error ⟨"parent",
          "والد یک " ++ quoted (pystr locType) ++ " باید از نوع " ++
            quoted (pystr required) ++ " باشد، اما والد ارائه شده از نوع " ++
            quoted p.type ++ " است."⟩

/-- Acceptance predicate written from the spec's words (section 4.1): a
Province must have no parent; a non-Province must have a parent whose type is
the fixed predecessor from the hierarchy table. -/
def specHierarchyOk : Option String → Option Location → Bool
  | some t, none => t == PROVINCE
  | some t, some p => (t != PROVINCE) && (hierarchyGet t == some p.type)
  | none, _ => false

lemma validateCore_ok_iff (t : Option String) (p : Option Location) :
    validateCore t p = .ok () ↔ specHierarchyOk t p = true := by
  cases t with
  | none => cases p <;> simp [validateCore, specHierarchyOk, PROVINCE]
  | some s =>
    by_cases hs : s = PROVINCE
    · subst hs; cases p <;> simp [validateCore, specHierarchyOk]
    · cases p with
      | none => simp [validateCore, specHierarchyOk, hs]
      | some l =>
        by_cases hl : some l.type = hierarchyGet s
        · simp [validateCore, specHierarchyOk, hs, ← hl]
        · simp [validateCore, specHierarchyOk, hs, hl, Ne.symm hl]

lemma strContains_quoted_self (s : String) : strContains (quoted s) s = true :=
  strContains_append_left _ _ _ (strContains_append_right _ _ _ (strContains_self s))

lemma validateCore_mismatch (t : String) (l : Location) (ht : t ≠ PROVINCE)
    (h : ¬ some l.type = hierarchyGet t) :
    validateCore (some t) (some l) = .error ⟨"parent",
      "والد یک " ++ quoted t ++ " باید از نوع " ++ quoted (pystr (hierarchyGet t)) ++
        " باشد، اما والد ارائه شده از نوع " ++ quoted l.type ++ " است."⟩ := by
  simp [validateCore, ht, h, pystr]

lemma validateCore_error_field (t : Option String) (p : Option Location)
    (e : ValidationError) (he : validateCore t p = .error e) : e.field = "parent" := by
  unfold validateCore at he
  split at he
  · split at he
    · injection he with h; rw [← h]
    · simp at he
  · split at he
    · injection he with h; rw [← h]
    · dsimp only at he
      split at he
      · simp at he
      · injection he with h; rw [← h]

/-- C1: the location validator accepts a Province exactly when its parent is
null, rejects any non-Province with a null parent, and otherwise accepts
exactly when the parent's type is the fixed predecessor from the hierarchy
table (District to City, City to County, County to Province); every rejection
is a validation error on the field "parent", and in the parent-type-mismatch
case the message names the offending type and the expected parent type. -/
theorem location_validator_rules (t : String) (p : Option Location) :
    (validateCore (some t) p = .ok () ↔
      ((t = PROVINCE ∧ p = none) ∨
        (t ≠ PROVINCE ∧ ∃ l, p = some l ∧ hierarchyGet t = some l.type))) ∧
    (∀ e, validateCore (some t) p = .error e → e.field = "parent") ∧
    (∀ l r, p = some l → t ≠ PROVINCE → hierarchyGet t = some r → r ≠ l.type →
      ∃ e, validateCore (some t) p = .error e ∧
        strContains e.message t = true ∧ strContains e.message r = true) := by
  refine ⟨?_, fun e he => validateCore_error_field _ _ e he, ?_⟩
  · rw [validateCore_ok_iff]
    cases p with
    | none => by_cases ht : t = PROVINCE <;> simp [specHierarchyOk, ht]
    | some l => by_cases ht : t = PROVINCE <;> simp [specHierarchyOk, ht]
  · intro l r hp ht hget hne
    subst hp
    have hcond : ¬ some l.type = hierarchyGet t := by
      rw [hget]
      intro hh
      exact hne (Option.some.inj hh).symm
    refine ⟨_, validateCore_mismatch t l ht hcond, ?_, ?_⟩
    · exact strContains_append_left _ _ _ (strContains_append_left _ _ _
        (strContains_append_left _ _ _ (strContains_append_left _ _ _
          (strContains_append_left _ _ _ (strContains_append_right _ _ _
            (strContains_quoted_self t))))))
    · rw [hget]
      show strContains _ r = true
      exact strContains_append_left _ _ _ (strContains_append_left _ _ _
        (strContains_append_left _ _ _ (strContains_append_right _ _ _
          (strContains_quoted_self r))))

/-- Witness for C1 at a concrete input: a City whose parent is a District is
rejected with a "parent" error whose message names City and County. -/
theorem location_validator_rules_witness :
    ∃ e, validateCore (some CITY) (some (Location.node "X" DISTRICT none)) = .error e ∧
      strContains e.message CITY = true ∧ strContains e.message COUNTY = true :=
  (location_validator_rules CITY (some (Location.node "X" DISTRICT none))).2.2
    (Location.node "X" DISTRICT none) COUNTY rfl (by decide) (by decide) (by decide)

/-- C7: on update the validator falls back to the stored instance for fields
absent from the request, its decision is a function of the resulting
(type, parent) pair only, and it accepts exactly when that resulting pair
satisfies the hierarchy rules. -/
theorem location_validate_update_uses_resulting_pair
    (data : LocationData) (inst : Option Location) :
    validate data inst =
      validateCore (effectiveType data inst) (effectiveParent data inst) ∧
    (validate data inst = .ok () ↔
      specHierarchyOk (effectiveType data inst) (effectiveParent data inst) = true) := by
  constructor
  · rfl
  · exact validateCore_ok_iff _ _

/-- Witness for C7 at a concrete input: an update request touching neither
type nor parent of a stored District under a City is re-validated from the
stored pair and accepted. -/
theorem location_validate_update_uses_resulting_pair_witness :
    validate {} (some (Location.node "منطقه ۱" DISTRICT
        (some (Location.node "تهران" CITY none)))) = Except.ok () :=
  (location_validate_update_uses_resulting_pair {}
    (some (Location.node "منطقه ۱" DISTRICT
      (some (Location.node "تهران" CITY none))))).2.mpr (by decide)

/-! ## Drug / Pharmacy / Inventory models (api/models.py) -/

structure Manufacturer where
  name : String
  country : String

structure Drug where
  id : Nat
  generic_name : String
  brand_name : Option String
  irc : String
  dosage : String
  form : String
  manufacturer : Manufacturer
  requires_prescription : Bool

structure Pharmacy where
  id : Nat
  name : String
  license_number : String
  is_24_hours : Bool
  location : Location

/-- An inventory row. The expiry date is modelled as an integer day number and
the decimal price in hundredths; quantity is a PositiveIntegerField, hence a
natural number. -/
structure PharmacyInventory where
  drug : Drug
  pharmacy : Pharmacy
  batch_number : Option String
  expire_date : Int
  quantity : Nat
  price : Int

/-! ## Inventory filter set (api/filters.py, PharmacyInventoryFilter) -/

/-- Django `icontains` on a nullable column: a SQL NULL never matches LIKE. -/
def icontainsLookup (column : Option String) (s : String) : Bool :=
  match column with
  | some v => icontains v s
  | none => false

/-- Column reached by the path `pharmacy__location__name` (depth 0). -/
def locationDistrictName (inv : PharmacyInventory) : Option String :=
  some inv.pharmacy.location.name

/-- Column reached by the path `pharmacy__location__parent__name` (depth 1);
a missing parent yields NULL through the LEFT JOIN. -/
def locationCityName (inv : PharmacyInventory) : Option String :=
  (inv.pharmacy.location.parent).map Location.name

/-- Column reached by `pharmacy__location__parent__parent__name` (depth 2). -/
def locationCountyName (inv : PharmacyInventory) : Option String :=
  ((inv.pharmacy.location.parent).bind Location.parent).map Location.name

/-- Column reached by `pharmacy__location__parent__parent__parent__name`
(depth 3). -/
def locationProvinceName (inv : PharmacyInventory) : Option String :=
  (((inv.pharmacy.location.parent).bind Location.parent).bind
    Location.parent).map Location.name

/-- Python integer value of a boolean, as Django prepares a boolean for a
comparison lookup against an integer column (True is 1, False is 0). -/
def pyInt (b : Bool) : Nat := if b then 1 else 0

/-- The query-parameter set of PharmacyInventoryFilter; `none` means the
parameter was not supplied, and filters compose with AND semantics. -/
structure InventoryQuery where
  drug : Option Nat := none
  drug_name : Option String := none
  drug_brand_name : Option String := none
  drug_form : Option String := none
  drug_irc : Option String := none
  manufacturer_name : Option String := none
  pharmacy : Option Nat := none
  pharmacy_name : Option String := none
  pharmacy_is_24_hours : Option Bool := none
  location_district : Option String := none
  location_city : Option String := none
  location_county : Option String := none
  location_province : Option String := none
  batch_number : Option String := none
  has_stock : Option Bool := none
  expire_date_after : Option Int := none
  expire_date_before : Option Int := none
  price_min : Option Int := none
  price_max : Option Int := none

/-- An absent parameter imposes no constraint; a supplied one applies its
lookup. -/
def applies (param : Option β) (f : β → Bool) : Bool :=
  match param with
  | none => true
  | some v => f v

/-- Conjunction of all lookups of PharmacyInventoryFilter on one row, each
following the source's field path and lookup expression. The `has_stock`
filter is declared `BooleanFilter(field_name='quantity', lookup_expr='gt')`,
so the supplied boolean is compared by strict greater-than against the
integer column after coercion by `pyInt`. -/
def matchesQuery (q : InventoryQuery) (inv : PharmacyInventory) : Bool :=
  applies q.drug (fun i => decide (inv.drug.id = i)) &&
  applies q.drug_name (fun s => icontains inv.drug.generic_name s) &&
  applies q.drug_brand_name (fun s => icontainsLookup inv.drug.brand_name s) &&
  applies q.drug_form (fun s => icontains inv.drug.form s) &&
  applies q.drug_irc (fun s => decide (inv.drug.irc = s)) &&
  applies q.manufacturer_name (fun s => icontains inv.drug.manufacturer.name s) &&
  applies q.pharmacy (fun i => decide (inv.pharmacy.id = i)) &&
  applies q.pharmacy_name (fun s => icontains inv.pharmacy.name s) &&
  applies q.pharmacy_is_24_hours (fun b => inv.pharmacy.is_24_hours == b) &&
  applies q.location_district (fun s => icontainsLookup (locationDistrictName inv) s) &&
  applies q.location_city (fun s => icontainsLookup (locationCityName inv) s) &&
  applies q.location_county (fun s => icontainsLookup (locationCountyName inv) s) &&
  applies q.location_province (fun s => icontainsLookup (locationProvinceName inv) s) &&
  applies q.batch_number (fun s => icontainsLookup inv.batch_number s) &&
  applies q.has_stock (fun b => decide (pyInt b < inv.quantity)) &&
  applies q.expire_date_after (fun d => decide (d ≤ inv.expire_date)) &&
  applies q.expire_date_before (fun d => decide (inv.expire_date ≤ d)) &&
  applies q.price_min (fun v => decide (v ≤ inv.price)) &&
  applies q.price_max (fun v => decide (inv.price ≤ v))

/-- The filtered queryset: rows of the table satisfying all supplied
filters. -/
def applyQuery (q : InventoryQuery) (recs : List PharmacyInventory) :
    List PharmacyInventory :=
  recs.filter (matchesQuery q)

lemma ancestorAt_one (l : Location) : l.ancestorAt 1 = l.parent := by
  cases hp : l.parent <;> simp [Location.ancestorAt, hp]

lemma ancestorAt_two (l : Location) :
    l.ancestorAt 2 = l.parent.bind Location.parent := by
  cases hp : l.parent with
  | none => simp [Location.ancestorAt, hp]
  | some p =>
    simp only [Location.ancestorAt, hp, Option.some_bind]
    cases hq : p.parent <;> simp [hq]

lemma ancestorAt_three (l : Location) :
    l.ancestorAt 3 = (l.parent.bind Location.parent).bind Location.parent := by
  cases hp : l.parent with
  | none => simp [Location.ancestorAt, hp]
  | some p => simpa [Location.ancestorAt, hp] using ancestorAt_two p

lemma icontainsLookup_map_name (o : Option Location) (s : String) :
    icontainsLookup (o.map Location.name) s = true ↔
      ∃ l, o = some l ∧ icontains l.name s = true := by
  cases o <;> simp [icontainsLookup]

/-- C2: each of the four ancestor filters on the inventory search matches a
record exactly when the ancestor of the pharmacy's location at its fixed
depth (0 for district, 1 for city, 2 for county, 3 for province) exists and
its name contains the supplied string case-insensitively; a record whose
location chain has no node at that depth is excluded, not an error, and no
other depth is consulted. -/
theorem location_ancestor_filters_exact_depth
    (recs : List PharmacyInventory) (inv : PharmacyInventory) (s : String) :
    (inv ∈ applyQuery { location_district := some s } recs ↔
      inv ∈ recs ∧ ∃ l, inv.pharmacy.location.ancestorAt 0 = some l ∧
        icontains l.name s = true) ∧
    (inv ∈ applyQuery { location_city := some s } recs ↔
      inv ∈ recs ∧ ∃ l, inv.pharmacy.location.ancestorAt 1 = some l ∧
        icontains l.name s = true) ∧
    (inv ∈ applyQuery { location_county := some s } recs ↔
      inv ∈ recs ∧ ∃ l, inv.pharmacy.location.ancestorAt 2 = some l ∧
        icontains l.name s = true) ∧
    (inv ∈ applyQuery { location_province := some s } recs ↔
      inv ∈ recs ∧ ∃ l, inv.pharmacy.location.ancestorAt 3 = some l ∧
        icontains l.name s = true) := by
  refine ⟨?_, ?_, ?_, ?_⟩ <;>
    rw [applyQuery, List.mem_filter] <;>
    refine and_congr_right fun _ => ?_
  · simp only [matchesQuery, applies, Bool.and_eq_true, Bool.true_and, Bool.and_true]
    rw [locationDistrictName]
    simp [Location.ancestorAt, icontainsLookup]
  · simp only [matchesQuery, applies, Bool.and_eq_true, Bool.true_and, Bool.and_true]
    rw [locationCityName, ← ancestorAt_one]
    exact icontainsLookup_map_name _ s
  · simp only [matchesQuery, applies, Bool.and_eq_true, Bool.true_and, Bool.and_true]
    rw [locationCountyName, ← ancestorAt_two]
    exact icontainsLookup_map_name _ s
  · simp only [matchesQuery, applies, Bool.and_eq_true, Bool.true_and, Bool.and_true]
    rw [locationProvinceName, ← ancestorAt_three]
    exact icontainsLookup_map_name _ s

/-- Sample manufacturer for concrete evaluations. -/
def mfr0 : Manufacturer := ⟨"Acme", "IR"⟩

/-- Sample drug. -/
def drug0 : Drug := ⟨1, "aspirin", none, "IRC1", "100mg", "Tablet", mfr0, true⟩

/-- A pharmacy attached directly to a Province-level location, so its
location chain has only one level. -/
def pharmProvince : Pharmacy :=
  ⟨1, "PH", "L1", false, Location.node "البرز" PROVINCE none⟩

/-- Inventory row with quantity 1 (in stock). -/
def invQty1 : PharmacyInventory := ⟨drug0, pharmProvince, none, 0, 1, 100⟩

/-- Inventory row with quantity 0 (out of stock). -/
def invQty0 : PharmacyInventory := ⟨drug0, pharmProvince, none, 0, 0, 100⟩

/-- Witness for C2 at concrete inputs: on a Province-level pharmacy the
district filter matches the node itself while the city filter finds no node
at depth 1 and excludes the record. -/
theorem location_ancestor_filters_exact_depth_witness :
    (invQty1 ∈ applyQuery { location_district := some "البرز" } [invQty1] ↔
      invQty1 ∈ [invQty1] ∧ ∃ l, invQty1.pharmacy.location.ancestorAt 0 = some l ∧
        icontains l.name "البرز" = true) ∧
    (invQty1 ∈ applyQuery { location_city := some "البرز" } [invQty1] ↔
      invQty1 ∈ [invQty1] ∧ ∃ l, invQty1.pharmacy.location.ancestorAt 1 = some l ∧
        icontains l.name "البرز" = true) :=
  ⟨(location_ancestor_filters_exact_depth [invQty1] invQty1 "البرز").1,
   (location_ancestor_filters_exact_depth [invQty1] invQty1 "البرز").2.1⟩

/-- C3 (code-bug evidence): the `has_stock` filter compares `quantity` with
strict greater-than against the supplied boolean's integer coercion, so
`has_stock=true` demands quantity strictly greater than 1 and excludes a
record with quantity 1, although its quantity is strictly positive and no
other filter is supplied — contradicting the filter's own help text
("Filter for items with quantity greater than 0"). With `has_stock` absent,
records with quantity 0 are included. -/
theorem has_stock_true_excludes_quantity_one :
    0 < invQty1.quantity ∧
    applyQuery { has_stock := some true } [invQty1] = [] ∧
    applyQuery {} [invQty1, invQty0] = [invQty1, invQty0] :=
  ⟨by decide, rfl, rfl⟩

/-- C9: whichever boolean is supplied for `has_stock`, the lookup requires
`quantity` strictly greater than the boolean's integer value, so a record
with quantity 0 is never returned. -/
theorem has_stock_never_returns_zero_quantity (q : InventoryQuery) (b : Bool)
    (recs : List PharmacyInventory) (inv : PharmacyInventory)
    (hq : q.has_stock = some b) (h0 : inv.quantity = 0) :
    inv ∉ applyQuery q recs := by
  intro hmem
  have hm := (List.mem_filter.mp hmem).2
  cases b with
  | true => simp [matchesQuery, applies, hq, h0, pyInt] at hm
  | false => simp [matchesQuery, applies, hq, h0, pyInt] at hm

/-- Witness for C9 at a concrete input: with `has_stock=false` supplied, the
out-of-stock record is not returned. -/
theorem has_stock_never_returns_zero_quantity_witness :
    invQty0 ∉ applyQuery { has_stock := some false } [invQty0] :=
  has_stock_never_returns_zero_quantity { has_stock := some false } false
    [invQty0] invQty0 rfl rfl

/-! ## JSON values and Python-level operations on a parsed payload -/

/-- A parsed JSON value, as `json.loads` yields it (numbers collapsed to
integers; the claims never involve fractional numbers). An object's keys are
unique because `json.loads` keeps only the last duplicate. -/
inductive Json where
  | null
  | bool (b : Bool)
  | num (n : Int)
  | str (s : String)
  | arr (a : List Json)
  | obj (o : List (String × Json))

/-- Escape of one character inside a JSON string literal (quote and
backslash; escaping of control and non-ASCII characters is elided, the
payloads of the claims being plain). -/
def jsonEscapeChar (c : Char) : String :=
  if c = '\x22' then "\\\x22"
  else if c = '\\' then "\\\\"
  else String.singleton c

/-- Escape of a string for a JSON literal. -/
def jsonEscape (s : String) : String := String.join (s.data.map jsonEscapeChar)

mutual

/-- Python `json.dumps` with its default separators. -/
def Json.dumps : Json → String
  | .null => "null"
  | .bool b => if b then "true" else "false"
  | .num n => toString n
  | .str s => "\x22" ++ jsonEscape s ++ "\x22"
  | .arr a => "[" ++ dumpsItems a ++ "]"
  | .obj o => "\x7b" ++ dumpsPairs o ++ "\x7d"

/-- Comma-joined serialization of array items. -/
def dumpsItems : List Json → String
  | [] => ""
  | [j] => Json.dumps j
  | j :: js => Json.dumps j ++ ", " ++ dumpsItems js

/-- Comma-joined serialization of object entries. -/
def dumpsPairs : List (String × Json) → String
  | [] => ""
  | [(k, v)] => "\x22" ++ jsonEscape k ++ "\x22" ++ ": " ++ Json.dumps v
  | (k, v) :: kvs =>
    "\x22" ++ jsonEscape k ++ "\x22" ++ ": " ++ Json.dumps v ++ ", " ++ dumpsPairs kvs

end

/-- Python `key in payload` on a parsed JSON value: key lookup on a dict,
substring test on a str, element equality on a list; on an int, float, bool
or None it raises TypeError (modelled as an error). -/
def pyMem (key : String) : Json → Except Unit Bool
  | .obj o => .ok (o.any fun kv => kv.1 == key)
  | .str s => .ok (strContains s key)
  | .arr a => .ok (a.any fun j => match j with | .str s => s == key | _ => false)
  | _ => .error ()

/-- Python `payload[key] = v`: replaces the value on a dict; on any other
value reached here (str, list) it raises TypeError. -/
def pySetItem (key : String) (v : Json) : Json → Except Unit Json
  | .obj o => .ok (.obj (o.map fun kv => if kv.1 == key then (kv.1, v) else kv))
  | _ => .error ()

/-- The redaction step of RequestLogMiddleware: if 'password' is in the
payload, replace it with the fixed marker. -/
def redactPassword (j : Json) : Except Unit Json := do
  let present ← pyMem "password" j
  if present then pySetItem "password" (.str "********") j else pure j

/-! ## Request model and RequestLogMiddleware (api/middleware.py) -/

/-- The request body as the middleware sees it after the response is
computed. -/
inductive RawBody where
  | empty
  | jsonOf (j : Json)
  | undecodable

/-- The inbound request facts the middleware consumes. `user` is the
authenticated principal resolved upstream, none when anonymous. -/
structure Request where
  path : String
  method : String
  queryParams : List (String × String)
  contentType : String
  body : RawBody
  user : Option Nat
  xForwardedFor : Option String
  remoteAddr : Option String

/-- Python `json.dumps(request.GET)`: the query parameters serialized as a
JSON object of strings. -/
def dumpsQuery (params : List (String × String)) : String :=
  Json.dumps (.obj (params.map fun kv => (kv.1, Json.str kv.2)))

/-- The payload-resolution block of RequestLogMiddleware.__call__. The
error value models the uncaught TypeError raised by `'password' in payload`
or `payload['password'] = ...` on a non-dict payload; only JSONDecodeError
and UnicodeDecodeError are caught by the source. -/
def requestPayload (r : Request) : Except Unit String :=
  if r.method == "GET" && !r.queryParams.isEmpty then
    .ok (dumpsQuery r.queryParams)
  else
    match r.body with
    | .empty => .ok ""
    | .jsonOf j =>
      if strContains r.contentType "application/json" then
        match redactPassword j with
        | .ok j2 => .ok (Json.dumps j2)
        | .error _ => .error ()
      else .ok ("Non-JSON body (Content-Type: " ++ r.contentType ++ ")")
    | .undecodable =>
      if strContains r.contentType "application/json" then
        .ok "Could not decode request body."
      else .ok ("Non-JSON body (Content-Type: " ++ r.contentType ++ ")")

/-- Split of a character list on a separator, Python str.split with an
explicit separator (adjacent separators give empty fields). -/
def splitChars (sep : Char) : List Char → List (List Char)
  | [] => [[]]
  | c :: cs =>
    let rest := splitChars sep cs
    if c = sep then [] :: rest
    else
      match rest with
      | r :: rs => (c :: r) :: rs
      | [] => [[c]]

/-- Python `s.split(',')`. -/
def pySplitComma (s : String) : List String :=
  (splitChars ',' s.data).map (fun cs => String.mk cs)

/-- Client IP resolution: first comma-separated token of the forwarded-for
header when that header is present and non-empty, else the direct connection
address. -/
def clientIP (xff remote : Option String) : Option String :=
  match xff with
  | some s => if s.data.isEmpty then remote else some ((pySplitComma s).headD s)
  | none => remote

/-- A persisted RequestLog row. -/
structure RequestLog where
  user : Option Nat
  endpoint : String
  method : String
  request_payload : String
  response_status : Nat
  ip_address : Option String

/-- Paths excluded from audit logging. -/
def excludePaths : List String := ["/api/swagger/", "/api/redoc/"]

/-- The recording condition of RequestLogMiddleware: path inside the API
namespace, not an excluded documentation path, method not OPTIONS. -/
def shouldLog (r : Request) : Bool :=
  charsPrefixOf "/api/".data r.path.data &&
    !(excludePaths.contains r.path) && r.method != "OPTIONS"

/-- RequestLogMiddleware.__call__ after the wrapped view produced
`responseStatus`: the row persisted, if any. The error value is the crash of
the payload step propagating out of the middleware, in which case no row is
persisted and the response is disrupted. -/
def middlewareRun (r : Request) (responseStatus : Nat) :
    Except Unit (Option RequestLog) :=
  if shouldLog r then
    match requestPayload r with
    | .ok p => .ok (some ⟨r.user, r.path, r.method, p, responseStatus,
        clientIP r.xForwardedFor r.remoteAddr⟩)
    | .error _ => .error ()
  else .ok none

/-- A POST inside the API namespace whose JSON body is the bare number 5. -/
def reqScalarBody : Request :=
  { path := "/api/users/", method := "POST", queryParams := [],
    contentType := "application/json", body := .jsonOf (.num 5),
    user := none, xForwardedFor := none, remoteAddr := some "127.0.0.1" }

/-- A POST carrying the spec's example JSON object body with a password. -/
def reqDictBody : Request :=
  { path := "/api/users/", method := "POST", queryParams := [],
    contentType := "application/json",
    body := .jsonOf (.obj [("password", .str "secret123"),
      ("contact_number", .str "09110001122")]),
    user := none, xForwardedFor := none, remoteAddr := some "127.0.0.1" }

/-- C4 (code-bug evidence): on the spec's own example body the recorder
redacts correctly — the stored payload carries the marker and never the
submitted secret — but the body `5`, valid JSON under a JSON content type,
makes the membership test `'password' in payload` raise an uncaught
TypeError (an int is not iterable): the payload step crashes instead of
producing the re-serialized body the claim requires there. -/
theorem payload_resolution_crashes_on_scalar_json_body :
    (∃ p, requestPayload reqDictBody = .ok p ∧
      strContains p "********" = true ∧ strContains p "secret123" = false) ∧
    requestPayload reqScalarBody = .error () :=
  ⟨⟨_, rfl, by decide, by decide⟩, rfl⟩

/-- A POST inside the API namespace whose JSON body is `null`. -/
def reqNullBody : Request :=
  { path := "/api/drugs/", method := "POST", queryParams := [],
    contentType := "application/json", body := .jsonOf .null,
    user := some 7, xForwardedFor := none, remoteAddr := some "10.0.0.9" }

/-- A CORS pre-flight request, excluded from recording. -/
def reqOptions : Request :=
  { path := "/api/drugs/", method := "OPTIONS", queryParams := [],
    contentType := "", body := .empty, user := none, xForwardedFor := none,
    remoteAddr := some "127.0.0.1" }

/-- A qualifying GET with query parameters behind a proxy chain. -/
def reqGetInventory : Request :=
  { path := "/api/inventory/", method := "GET",
    queryParams := [("drug_name", "aspirin")], contentType := "",
    body := .empty, user := some 3,
    xForwardedFor := some "2.2.2.2, 10.0.0.1", remoteAddr := some "10.1.1.1" }

/-- C6 (code-bug evidence): the recorder does write exactly one correct row
for an ordinary qualifying request (first forwarded-for token as IP) and
none for OPTIONS; but a request that satisfies all three recording
conditions whose JSON body is `null` gets no row at all — the payload step
raises an uncaught TypeError and the middleware crashes instead of
persisting the row the claim requires for every qualifying request. -/
theorem audit_recorder_misses_qualifying_request :
    shouldLog reqNullBody = true ∧
    middlewareRun reqNullBody 201 = .error () ∧
    middlewareRun reqOptions 200 = .ok none ∧
    middlewareRun reqGetInventory 200 = .ok (some
      { user := some 3, endpoint := "/api/inventory/", method := "GET",
        request_payload := dumpsQuery [("drug_name", "aspirin")],
        response_status := 200, ip_address := some "2.2.2.2" }) :=
  ⟨rfl, rfl, rfl, rfl⟩

/-! ## Search log recorder (api/views.py, PharmacyInventoryViewSet.list) -/

/-- A persisted InventorySearchLog row. -/
structure InventorySearchLog where
  user : Option Nat
  query_params : String
  ip_address : Option String

/-- The operations routed in api/urls.py. -/
inductive Operation where
  | locationsCrud
  | manufacturersCrud
  | drugsCrud
  | pharmaciesCrud
  | inventoryList
  | inventoryWrite
  | usersCrud
  | searchLogsList
  | tokenObtain
  | tokenRefresh
  | logout
deriving DecidableEq

/-- The declared filter parameter names of PharmacyInventoryFilter, with the
derived bound suffixes its two range filters expose. The pagination
parameters `page` and `limit` are not among them. -/
def filterParamNames : List String :=
  ["drug", "drug_name", "drug_brand_name", "drug_form", "drug_irc",
   "manufacturer_name", "pharmacy", "pharmacy_name", "pharmacy_is_24_hours",
   "location_district", "location_city", "location_county",
   "location_province", "batch_number", "has_stock",
   "expire_date_after", "expire_date_before", "price_min", "price_max"]

/-- The search-log rows an operation writes. PharmacyInventoryViewSet.list
writes one row when `request.GET` is non-empty, recording the caller,
`json.dumps(request.GET)` and the client IP resolved as in the middleware;
no other view in the source creates InventorySearchLog rows. -/
def searchLogsWritten (op : Operation) (params : List (String × String))
    (user : Option Nat) (xff remote : Option String) : List InventorySearchLog :=
  match op with
  | .inventoryList =>
    if params.isEmpty then []
    else [⟨user, dumpsQuery params, clientIP xff remote⟩]
  | _ => []

/-- The inventory list operation end to end: the filtered rows returned and
the search-log rows written. -/
def inventoryList (recs : List PharmacyInventory) (q : InventoryQuery)
    (params : List (String × String)) (user : Option Nat)
    (xff remote : Option String) :
    List PharmacyInventory × List InventorySearchLog :=
  (applyQuery q recs, searchLogsWritten .inventoryList params user xff remote)

/-- C5 counterexample: a request supplying only the pagination parameter
`page` — which is not a filter parameter of PharmacyInventoryFilter — still
writes a search-log row, because the source tests `request.GET` for any
query parameter at all; this refutes "a search-log row is written iff at
least one filter parameter was supplied". -/
theorem search_log_written_without_filter_params :
    ([("page", "1")].all fun kv => !(filterParamNames.contains kv.1)) = true ∧
    (searchLogsWritten .inventoryList [("page", "1")] none none
      (some "9.9.9.9")).length = 1 :=
  ⟨rfl, rfl⟩

/-- C5 amended: serving an inventory list writes exactly one search-log row
iff at least one query parameter of any kind was supplied (pagination
parameters such as `page` included) — the row records the caller or null,
the serialized query parameters used, and the client IP resolved as the
audit recorder resolves it — independently of the matching result set, also
when that set is empty; and every routed operation other than the inventory
listing writes no search-log row. -/
theorem search_log_row_iff_any_query_param
    (recs : List PharmacyInventory) (q : InventoryQuery)
    (params : List (String × String)) (user : Option Nat)
    (xff remote : Option String) :
    ((inventoryList recs q params user xff remote).2 =
      (inventoryList [] q params user xff remote).2) ∧
    ((inventoryList recs q params user xff remote).2.length = 1 ↔ params ≠ []) ∧
    (params ≠ [] → (inventoryList recs q params user xff remote).2 =
      [⟨user, dumpsQuery params, clientIP xff remote⟩]) ∧
    (∀ op : Operation, op ≠ .inventoryList →
      searchLogsWritten op params user xff remote = []) := by
  refine ⟨rfl, ?_, ?_, ?_⟩
  · cases params <;> simp [inventoryList, searchLogsWritten]
  · intro hp
    cases params with
    | nil => exact absurd rfl hp
    | cons a l => simp [inventoryList, searchLogsWritten]
  · intro op hop
    cases op <;> first
      | rfl
      | exact absurd rfl hop

/-- Witness for C5 at a concrete input: a `drug_name=aspirin` search against
an empty table returns no rows yet writes exactly one search-log row
recording the parameters. -/
theorem search_log_row_iff_any_query_param_witness :
    (inventoryList [] {} [("drug_name", "aspirin")] none none
        (some "1.1.1.1")).2 =
      [⟨none, dumpsQuery [("drug_name", "aspirin")], some "1.1.1.1"⟩] :=
  (search_log_row_iff_any_query_param [] {} [("drug_name", "aspirin")] none none
    (some "1.1.1.1")).2.2.1 (by decide)

/-! ## Pagination (api/pagination.py, CustomPagination) -/

/-- Default number of items per page. -/
def page_size : Nat := 5

/-- Hard maximum page size a client may request via `limit`. -/
def max_page_size : Nat := 100

/-- Python str.isdigit: non-empty and all characters decimal digits. -/
def pyIsDigit (s : String) : Bool := !s.data.isEmpty && s.data.all Char.isDigit

/-- Value of a decimal digit string. -/
def digitsToNat (cs : List Char) : Nat :=
  cs.foldl (fun acc c => acc * 10 + (c.toNat - 48)) 0

/-- Python `int(s)` restricted to the non-negative inputs the model needs;
fails on anything that is not a plain digit string. -/
def parseNat (s : String) : Option Nat :=
  if pyIsDigit s then some (digitsToNat s.data) else none

/-- The override in CustomPagination.paginate_queryset: a supplied `page`
parameter that is a digit string of value 0 disables pagination. -/
def isPageZero (pageParam : Option String) : Bool :=
  match pageParam with
  | some s => pyIsDigit s && ((parseNat s).getD 1 == 0)
  | none => false

/-- Modelled from the spec: the base-class page-size resolution of
rest_framework PageNumberPagination, which pagination.py configures but does
not itself contain — a positive `limit` is capped at max_page_size
("bounded by a hard maximum page size of 100 when paginated"); an invalid or
absent one falls back to the default page_size. -/
def getPageSize (limitParam : Option String) : Nat :=
  match limitParam with
  | none => page_size
  | some s =>
    match parseNat s with
    | some n => if n = 0 then page_size else min n max_page_size
    | none => page_size

/-- Modelled from the spec: the base-class behaviour of rest_framework
PageNumberPagination.paginate_queryset and django Paginator that
pagination.py delegates to — the slice of the requested page, the page
number defaulting to 1, `last` meaning the final page, and an invalid or
out-of-range page raising NotFound (the error case). -/
def drfPaginate (items : List α) (pageParam limitParam : Option String) :
    Except Unit (List α) :=
  let size := getPageSize limitParam
  let numPages := max 1 ((items.length + size - 1) / size)
  let pageNum : Except Unit Nat :=
    match pageParam with
    | none => .ok 1
    | some "last" => .ok numPages
    | some s =>
      match parseNat s with
      | some n => .ok n
      | none => .error ()
  match pageNum with
  | .error _ => .error ()
  | .ok n =>
    if 1 ≤ n ∧ n ≤ numPages then .ok ((items.drop ((n - 1) * size)).take size)
    else .error ()

/-- The rows a list endpoint responds with: CustomPagination.paginate_queryset
returning None (page=0) makes the view answer the full queryset
unpaginated; otherwise the framework page is served. -/
def listResponse (items : List α) (pageParam limitParam : Option String) :
    Except Unit (List α) :=
  if isPageZero pageParam then .ok items
  else drfPaginate items pageParam limitParam

lemma getPageSize_le (limitParam : Option String) :
    getPageSize limitParam ≤ max_page_size := by
  cases limitParam with
  | none => decide
  | some s =>
    cases hp : parseNat s with
    | none => simp only [getPageSize, hp]; decide
    | some n =>
      simp only [getPageSize, hp]
      by_cases hn : n = 0
      · simp only [hn, if_pos]; decide
      · rw [if_neg hn]
        exact Nat.min_le_right n max_page_size

/-- C8: with page=0 a list request answers the full matching result set
unpaginated whatever its size and whatever limit is supplied; with `page`
omitted and no limit it answers at most the default page size of 5 rows,
exactly 5 when more than 5 rows match; and when pagination is active the
effective page size obtained from the client's limit parameter is capped at
the hard maximum of 100, so no paginated response exceeds 100 rows. -/
theorem pagination_page_zero_and_caps {α : Type} (items : List α)
    (pageParam limitParam : Option String) :
    (listResponse items (some "0") limitParam = .ok items) ∧
    (∀ res, listResponse items none none = .ok res →
      res.length ≤ page_size ∧
        (page_size < items.length → res = items.take page_size ∧
          res.length = page_size)) ∧
    (getPageSize limitParam ≤ max_page_size) ∧
    (∀ res, listResponse items pageParam limitParam = .ok res →
      isPageZero pageParam = false → res.length ≤ max_page_size) := by
  refine ⟨rfl, ?_, getPageSize_le limitParam, ?_⟩
  · intro res hres
    have h1 : listResponse items none none = .ok (items.take page_size) := by
      simp [listResponse, isPageZero, drfPaginate, getPageSize, Nat.le_max_left]
    rw [h1] at hres
    injection hres with h2
    subst h2
    refine ⟨?_, ?_⟩
    · simp only [List.length_take]
      exact Nat.min_le_left page_size items.length
    · intro hlen
      refine ⟨rfl, ?_⟩
      simp only [List.length_take]
      omega
  · intro res hres hpz
    rw [listResponse, if_neg (by simp [hpz])] at hres
    unfold drfPaginate at hres
    dsimp only at hres
    split at hres
    · exact absurd hres (by simp)
    · split at hres
      · injection hres with h2
        rw [← h2]
        refine le_trans ?_ (getPageSize_le limitParam)
        simp only [List.length_take]
        exact Nat.min_le_left _ _
      · exact absurd hres (by simp)

/-- Witness for C8 at a concrete input: six rows with page=0 are returned in
full, and without a page parameter exactly the default five are returned. -/
theorem pagination_page_zero_and_caps_witness :
    listResponse [0, 1, 2, 3, 4, 5] (some "0") none =
      Except.ok [0, 1, 2, 3, 4, 5] ∧
    ([0, 1, 2, 3, 4] : List Nat).length = page_size :=
  ⟨(pagination_page_zero_and_caps [0, 1, 2, 3, 4, 5] (some "0") none).1,
   (((pagination_page_zero_and_caps ([0, 1, 2, 3, 4, 5] : List Nat) none
     none).2.1 [0, 1, 2, 3, 4] rfl).2 (by decide)).2⟩

/-! ## User roles and the admin permission (api/models.py, api/permissions.py) -/

/-- A Role row. -/
structure Role where
  name : String

/-- The custom User model fields the claims need. -/
structure User where
  contact_number : String
  full_name : Option String
  role : Option Role
  is_active : Bool
  is_staff : Bool
  is_superuser : Bool

/-- Whether the user's assigned role is named Admin (the condition
`self.role and self.role.name == 'Admin'`). -/
def roleIsAdmin (u : User) : Bool :=
  match u.role with
  | some r => r.name == "Admin"
  | none => false

/-- User.save override: staff and superuser status are rewritten from the
assigned role on every save, before delegating to the framework save. -/
def User.save (u : User) : User :=
  if (match u.role with | some r => r.name == "Admin" | none => false) then
    { u with is_staff := true, is_superuser := true }
  else
    { u with is_staff := false, is_superuser := false }

/-- request.user as the permission sees it: anonymous or authenticated. -/
inductive RequestUser where
  | anonymous
  | authed (u : User)

/-- IsAdminOrSuperUser.has_permission: authenticated and either superuser or
holding a role named Admin. -/
def has_permission : RequestUser → Bool
  | .anonymous => false
  | .authed u =>
    u.is_superuser || (match u.role with | some r => r.name == "Admin" | none => false)

/-- C10: after every save both is_staff and is_superuser equal "the assigned
role is named Admin" (so a stale superuser flag is revoked by any save
without that role); the admin permission denies anonymous callers and grants
an authenticated user exactly when superuser or Admin-roled; and under the
save invariant the two grant conditions coincide with the role test. -/
theorem admin_role_drives_flags_and_permission (u v : User) :
    ((User.save u).is_staff = roleIsAdmin u ∧
      (User.save u).is_superuser = roleIsAdmin u ∧
      (User.save u).role = u.role) ∧
    (has_permission .anonymous = false) ∧
    (has_permission (.authed v) = (v.is_superuser || roleIsAdmin v)) ∧
    (v.is_superuser = roleIsAdmin v → has_permission (.authed v) = roleIsAdmin v) ∧
    (has_permission (.authed (User.save u)) = roleIsAdmin u) := by
  refine ⟨?_, rfl, rfl, ?_, ?_⟩
  · cases hr : u.role with
    | none => simp [User.save, roleIsAdmin, hr]
    | some r => by_cases hn : r.name == "Admin" <;> simp [User.save, roleIsAdmin, hr, hn]
  · intro hsup
    show (v.is_superuser || roleIsAdmin v) = roleIsAdmin v
    rw [hsup, Bool.or_self]
  · show ((User.save u).is_superuser || roleIsAdmin (User.save u)) = roleIsAdmin u
    cases hr : u.role with
    | none => simp [User.save, roleIsAdmin, hr]
    | some r => by_cases hn : r.name == "Admin" <;> simp [User.save, roleIsAdmin, hr, hn]

/-- Sample user holding the Admin role with stale false flags. -/
def adminUser : User := ⟨"09110000000", none, some ⟨"Admin"⟩, true, false, false⟩

/-- Witness for C10 at a concrete input: after saving an Admin-roled user the
permission grant equals the role test, instantiating the invariant clause. -/
theorem admin_role_drives_flags_and_permission_witness :
    has_permission (RequestUser.authed (User.save adminUser)) =
      roleIsAdmin (User.save adminUser) :=
  (admin_role_drives_flags_and_permission adminUser (User.save adminUser)).2.2.2.1 rfl

end PharmacyApi
